import Mathlib

/-!
Verification of the email-automation dashboard client (src/web/script.js).
The client is embedded shallowly: pure helpers become Lean functions, the
DOM and the fetch side effects become explicit state passing over a record
of the document pieces the script touches.  Network responses are modelled
as `Option` values: `none` is a fetch or JSON-parse failure (the `catch`
path), `some` a successfully parsed body.
-/

/-- `const API_URL = "http://localhost:8000"` (script.js line 1). -/
def API_URL : String := "http://localhost:8000"

/-- One element of the `/emails?limit=50` response array, with the fields
`renderEmails` reads.  `priority_label` is `none` when the field is absent
(JS `undefined`). -/
structure Email where
  id : Nat
  subject : String
  sender : String
  priority_score : Int
  priority_label : Option String
  task_status : String
  next_action : String

/-- One element of the `/logs?limit=50` response array. -/
structure LogEntry where
  created_at : String
  email_id : Nat
  intent : String
  agent_action : String

/-- The `/stats` response body. -/
structure Stats where
  total_emails : Int
  total_actions : Int
  pending_retries : Int

/-- The global `currentState` object (script.js lines 4-9).  `stats` is a
generic JS object (initially `{}`), modelled as an association list. -/
structure CurrentState where
  isRunning : Bool
  stats : List (String × String)
  emails : List Email
  logs : List LogEntry

/-- Initial value of `currentState`: `isRunning: false, stats: {},
emails: [], logs: []`. -/
def initCurrentState : CurrentState :=
  { isRunning := false, stats := [], emails := [], logs := [] }

/-- `formatUptime` (script.js lines 130-136).  `if (!seconds) return "0s"`:
for a number, falsy means zero, so the guard is `seconds = 0` on `Nat`.
`Math.floor` on non-negative values is `Nat` division. -/
def formatUptime (seconds : Nat) : String :=
  if seconds = 0 then "0s"
  else
    let h := seconds / 3600
    let m := (seconds % 3600) / 60
    let s := seconds % 60
    toString h ++ "h " ++ toString m ++ "m " ++ toString s ++ "s"

/-- `getPriorityClass` (script.js lines 168-172). -/
def getPriorityClass (score : Int) : String :=
  if score ≥ 80 then "high"
  else if score ≥ 50 then "medium"
  else "low"

/-- `${e.priority_label || 'Unknown'}` (script.js line 145): JS `||`
falls back when the left side is falsy, i.e. absent or the empty string. -/
def labelOrUnknown : Option String → String
  | none => "Unknown"
  | some s => if s = "" then "Unknown" else s

/-- `${e.subject.substring(0, 40)}...` (script.js line 143): the first 40
characters of the subject with a literal ellipsis appended. -/
def subjectCell (subject : String) : String :=
  subject.take 40 ++ "..."

/-- The template literal for one `<tr>` of the emails table
(script.js lines 141-148), whitespace included. -/
def renderEmailRow (e : Email) : String :=
  "\n        <tr>\n            <td>#" ++ toString e.id ++
  "</td>\n            <td>" ++ subjectCell e.subject ++
  "</td>\n            <td>" ++ e.sender ++
  "</td>\n            <td><span class=\"tag " ++ getPriorityClass e.priority_score ++
  "\">" ++ labelOrUnknown e.priority_label ++
  "</span></td>\n            <td>" ++ e.task_status ++
  "</td>\n            <td>" ++ e.next_action ++
  "</td>\n        </tr>\n    "

/-- `renderEmails` (script.js lines 138-150): the string assigned to
`tbody.innerHTML`, i.e. `emails.map(...).join('')`. -/
def renderEmails (emails : List Email) : String :=
  String.join (emails.map renderEmailRow)

/-- The template literal for one log item (script.js lines 155-164). -/
def renderLogItem (l : LogEntry) : String :=
  "\n        <div class=\"log-item\">\n            <div class=\"log-header\">\n                <span>" ++
  l.created_at ++
  "</span>\n                <span>ID: " ++ toString l.email_id ++
  "</span>\n            </div>\n            <div class=\"log-content\">\n                <strong>Intent:</strong> " ++
  l.intent ++
  " <br>\n                <strong>Action:</strong> " ++ l.agent_action ++
  "\n            </div>\n        </div>\n    "

/-- `renderLogs` (script.js lines 152-166): the string assigned to
`container.innerHTML`. -/
def renderLogs (logs : List LogEntry) : String :=
  String.join (logs.map renderLogItem)

/-- Claim C2: `formatUptime 0 = "0s"`, `formatUptime 59 = "0h 0m 59s"`,
`formatUptime 3661 = "1h 1m 1s"`; any falsy (i.e. zero) uptime renders
as `"0s"`. -/
theorem formatUptime_spec :
    formatUptime 0 = "0s" ∧ formatUptime 59 = "0h 0m 59s" ∧
    formatUptime 3661 = "1h 1m 1s" ∧
    ∀ s : Nat, s = 0 → formatUptime s = "0s" := by
  refine ⟨rfl, by decide, by decide, ?_⟩
  intro s hs
  subst hs
  rfl

/-- Witness for C2: the general falsy clause instantiated at 0. -/
theorem formatUptime_spec_witness :
    (0 : Nat) = 0 ∧ formatUptime 0 = "0s" :=
  ⟨rfl, formatUptime_spec.2.2.2 0 rfl⟩

/-- Claim C1: `getPriorityClass` maps a score of at least 80 to
`"high"`, a score in `[50, 80)` to `"medium"`, and a score below 50 to
`"low"`; in particular 80, 79, 50, 49 map to high, medium, medium, low. -/
theorem getPriorityClass_spec (score : Int) :
    (80 ≤ score → getPriorityClass score = "high") ∧
    (50 ≤ score → score < 80 → getPriorityClass score = "medium") ∧
    (score < 50 → getPriorityClass score = "low") ∧
    getPriorityClass 80 = "high" ∧ getPriorityClass 79 = "medium" ∧
    getPriorityClass 50 = "medium" ∧ getPriorityClass 49 = "low" := by
  refine ⟨?_, ?_, ?_, by decide, by decide, by decide, by decide⟩
  · intro h
    simp [getPriorityClass, h]
  · intro h1 h2
    rw [getPriorityClass, if_neg (by omega), if_pos h1]
  · intro h
    rw [getPriorityClass, if_neg (by omega), if_neg (by omega)]

/-- Witness for C1: the three conditional clauses discharged at the
boundary scores 80, 79 and 49. -/
theorem getPriorityClass_spec_witness :
    ((80 : Int) ≤ 80 ∧ getPriorityClass 80 = "high") ∧
    ((50 : Int) ≤ 79 ∧ (79 : Int) < 80 ∧ getPriorityClass 79 = "medium") ∧
    ((49 : Int) < 50 ∧ getPriorityClass 49 = "low") :=
  ⟨⟨by decide, (getPriorityClass_spec 80).1 (by decide)⟩,
   ⟨by decide, by decide, (getPriorityClass_spec 79).2.1 (by decide) (by decide)⟩,
   ⟨by decide, (getPriorityClass_spec 49).2.2.1 (by decide)⟩⟩

/-- `classList.replace(old, new)` on an element whose relevant class slot
holds a single class name: the class changes only when it currently equals
`old`. -/
def classListReplace (oldC newC c : String) : String :=
  if c = oldC then newC else c

/-- The pieces of the document that script.js reads or writes, together
with the global `currentState`.  `navTargets`, `navTexts` and `pageIds`
are the static shape of the page (the `nav li` elements' `data-target`
attributes and texts, and the ids of the `.page` elements); `activeNav`
and `activePage` record which of them carry the `active` class. -/
structure FullState where
  currentState : CurrentState
  statusText : String
  statusIndicatorRunning : Bool
  toggleBtnText : String
  toggleBtnClass : String
  statUptime : String
  statEmails : String
  statActions : String
  statRetries : String
  emailsTbody : String
  logsList : String
  navTargets : List String
  navTexts : List String
  pageIds : List String
  activeNav : List Bool
  activePage : List Bool
  pageTitle : String

/-- `updateStatus` (script.js lines 112-128). -/
def updateStatus (isRunning : Bool) (uptime : Nat) (st : FullState) : FullState :=
  let st := { st with currentState := { st.currentState with isRunning := isRunning } }
  let st :=
    if isRunning then
      { st with statusText := "Running (" ++ formatUptime uptime ++ ")"
              , statusIndicatorRunning := true
              , toggleBtnText := "Stop Agent"
              , toggleBtnClass := classListReplace "primary" "secondary" st.toggleBtnClass }
    else
      { st with statusText := "Stopped"
              , statusIndicatorRunning := false
              , toggleBtnText := "Start Agent"
              , toggleBtnClass := classListReplace "secondary" "primary" st.toggleBtnClass }
  { st with statUptime := formatUptime uptime }

/-- `fetchStatus` (script.js lines 57-66): on a parsed response, forwards
`is_running` and `uptime` to `updateStatus`; on any failure the `catch`
block calls `updateStatus(false, 0)`. -/
def fetchStatus (resp : Option (Bool × Nat)) (st : FullState) : FullState :=
  match resp with
  | some (isRunning, uptime) => updateStatus isRunning uptime st
  | none => updateStatus false 0 st

/-- `fetchStats` (script.js lines 68-79): on success overwrites the three
stat displays; on failure only logs. -/
def fetchStats (resp : Option Stats) (st : FullState) : FullState :=
  match resp with
  | some d =>
      { st with statEmails := toString d.total_emails
              , statActions := toString d.total_actions
              , statRetries := toString d.pending_retries }
  | none => st

/-- The URL `fetchEmails` fetches (script.js line 83): the limit is the
literal 50, the function takes no parameter. -/
def fetchEmailsUrl : String := API_URL ++ "/emails?limit=50"

/-- The URL the spec's signature `fetchEmails(limit=50)` would fetch:
the emails endpoint with the given limit.  Stated only to compare with
`fetchEmailsUrl`, which is what the source builds. -/
def fetchEmailsUrlOfSpec (limit : Nat) : String :=
  API_URL ++ "/emails?limit=" ++ toString limit

/-- `fetchEmails` (script.js lines 81-89): on success hands the parsed
array to `renderEmails`, which overwrites `tbody.innerHTML` wholesale;
on failure only logs. -/
def fetchEmails (resp : Option (List Email)) (st : FullState) : FullState :=
  match resp with
  | some data => { st with emailsTbody := renderEmails data }
  | none => st

/-- `fetchLogs` (script.js lines 91-99). -/
def fetchLogs (resp : Option (List LogEntry)) (st : FullState) : FullState :=
  match resp with
  | some data => { st with logsList := renderLogs data }
  | none => st

/-- The observable outcome of one `toggleAgent` call (script.js lines
101-109): the POST request issued, the timeouts scheduled, and the console
errors logged.  `postSucceeds` is whether the awaited `fetch` resolves;
the `setTimeout(fetchStatus, 500)` sits inside the `try` after the
`await`, so it runs only on success. -/
structure ToggleOutcome where
  method : String
  url : String
  scheduled : List (Nat × String)
  errors : List String

/-- `toggleAgent` (script.js lines 101-109).  The endpoint is chosen from
the cached `currentState.isRunning` flag alone. -/
def toggleAgent (st : CurrentState) (postSucceeds : Bool) : ToggleOutcome :=
  let endpoint := if st.isRunning then "/control/stop" else "/control/start"
  if postSucceeds then
    { method := "POST", url := API_URL ++ endpoint
    , scheduled := [(500, "fetchStatus")], errors := [] }
  else
    { method := "POST", url := API_URL ++ endpoint
    , scheduled := [], errors := ["Toggle failed"] }

/-- Claim C3: whatever the prior state, a failed status fetch is caught
locally and leaves the status text `"Stopped"`, the toggle button text
`"Start Agent"`, and `currentState.isRunning` false.  (`fetchStatus` is a
total function: no exception escapes it.) -/
theorem fetchStatus_failure_spec (st : FullState) :
    (fetchStatus none st).statusText = "Stopped" ∧
    (fetchStatus none st).toggleBtnText = "Start Agent" ∧
    (fetchStatus none st).currentState.isRunning = false := by
  refine ⟨?_, ?_, ?_⟩ <;> simp [fetchStatus, updateStatus]

/-- Claim C4: `toggleAgent` POSTs to `/control/stop` when the cached
running flag is true and to `/control/start` when it is false; the chosen
endpoint depends on nothing besides that cached flag. -/
theorem toggleAgent_endpoint_spec (st st' : CurrentState) (ok ok' : Bool) :
    (toggleAgent st ok).method = "POST" ∧
    (st.isRunning = true → (toggleAgent st ok).url = API_URL ++ "/control/stop") ∧
    (st.isRunning = false → (toggleAgent st ok).url = API_URL ++ "/control/start") ∧
    (st.isRunning = st'.isRunning → (toggleAgent st ok).url = (toggleAgent st' ok').url) := by
  refine ⟨?_, ?_, ?_, ?_⟩
  · cases ok <;> simp [toggleAgent]
  · intro h
    cases ok <;> simp [toggleAgent, h]
  · intro h
    cases ok <;> simp [toggleAgent, h]
  · intro h
    cases ok <;> cases ok' <;> simp [toggleAgent, h]

/-- Witness for C4: both branches at concrete states. -/
theorem toggleAgent_endpoint_spec_witness :
    ({ initCurrentState with isRunning := true }.isRunning = true ∧
      (toggleAgent { initCurrentState with isRunning := true } true).url =
        API_URL ++ "/control/stop") ∧
    (initCurrentState.isRunning = false ∧
      (toggleAgent initCurrentState false).url = API_URL ++ "/control/start") :=
  ⟨⟨rfl, (toggleAgent_endpoint_spec { initCurrentState with isRunning := true }
      initCurrentState true true).2.1 rfl⟩,
   ⟨rfl, (toggleAgent_endpoint_spec initCurrentState initCurrentState false
      false).2.2.1 rfl⟩⟩

/-- Claim C5: rendering the empty emails array yields the empty table
body: `renderEmails [] = ""`, and a successful fetch of an empty list
leaves the table body empty, whatever it held before. -/
theorem renderEmails_empty_spec :
    renderEmails [] = "" ∧
    ∀ st : FullState, (fetchEmails (some []) st).emailsTbody = "" := by
  exact ⟨rfl, fun st => rfl⟩

/-- Counterexample for C7: the source's `fetchEmails` takes no limit
parameter; it always requests limit 50, so the URL the spec's
`fetchEmails(limit)` signature would produce at limit 10 differs from the
one the code issues. -/
theorem fetchEmails_limit_param_counterexample :
    fetchEmailsUrlOfSpec 10 ≠ fetchEmailsUrl := by
  decide

/-- Claim C7 (amended): `fetchEmails` takes no limit parameter and always
issues a GET with limit fixed at 50; on success it replaces the emails
table body entirely with the rendered rows, independent of what the body
held before. -/
theorem fetchEmails_spec (st st' : FullState) (data : List Email) :
    fetchEmailsUrl = "http://localhost:8000/emails?limit=50" ∧
    (fetchEmails (some data) st).emailsTbody = renderEmails data ∧
    (fetchEmails (some data) st).emailsTbody = (fetchEmails (some data) st').emailsTbody := by
  exact ⟨rfl, rfl, rfl⟩

/-- Counterexample for C8: when the POST fails, `toggleAgent` schedules no
follow-up status fetch — the `setTimeout` sits after the `await` inside
the `try`, so the claim's "including when the POST fails" is false. -/
theorem toggleAgent_schedule_counterexample :
    (toggleAgent initCurrentState false).scheduled = [] ∧
    (toggleAgent initCurrentState false).scheduled ≠ [(500, "fetchStatus")] := by
  exact ⟨rfl, by decide⟩

/-- Claim C8 (amended): `toggleAgent` schedules exactly one follow-up
status fetch 500 ms after the POST when the POST succeeds; when the POST
fails, it schedules nothing and only logs the error. -/
theorem toggleAgent_schedule_spec (st : CurrentState) (ok : Bool) :
    (ok = true → (toggleAgent st ok).scheduled = [(500, "fetchStatus")]) ∧
    (ok = false →
      (toggleAgent st ok).scheduled = [] ∧
      (toggleAgent st ok).errors = ["Toggle failed"]) := by
  cases ok <;> simp [toggleAgent]

/-- Witness for C8 (amended): both branches at a concrete state. -/
theorem toggleAgent_schedule_spec_witness :
    (toggleAgent initCurrentState true).scheduled = [(500, "fetchStatus")] ∧
    ((toggleAgent initCurrentState false).scheduled = [] ∧
      (toggleAgent initCurrentState false).errors = ["Toggle failed"]) :=
  ⟨(toggleAgent_schedule_spec initCurrentState true).1 rfl,
   (toggleAgent_schedule_spec initCurrentState false).2 rfl⟩

/-- Claim C10: the subject cell is the first 40 characters of the subject
with `"..."` appended; the ellipsis is appended even when the subject is
40 characters or shorter, in which case the whole subject is shown. -/
theorem subjectCell_spec (e : Email) :
    subjectCell e.subject = e.subject.take 40 ++ "..." ∧
    (e.subject.length ≤ 40 → subjectCell e.subject = e.subject ++ "...") := by
  constructor
  · rfl
  · intro h
    rw [subjectCell, String.take_eq, List.take_of_length_le h]

/-- Witness for C10: a five-character subject still gets the ellipsis. -/
theorem subjectCell_spec_witness :
    ("short" : String).length ≤ 40 ∧ subjectCell "short" = "short" ++ "..." :=
  ⟨by decide, (subjectCell_spec ⟨0, "short", "", 0, none, "", ""⟩).2 (by decide)⟩

/-- The nav-item click handler (script.js lines 38-54) for the item at
index `i`: clear `active` from every nav item, mark item `i`; clear
`active` from every `.page`, mark the page whose id is the item's
`data-target` (`getElementById` finds the first page with that id); set
the page title to the item's text; then fetch emails or logs when the
target is that page.  The nav/page structure itself lives in the HTML
document, which is not part of the repository's sources, so it is the
`navTargets`/`navTexts`/`pageIds` lists of `FullState`. -/
def clickNav (i : Nat) (emailsResp : Option (List Email))
    (logsResp : Option (List LogEntry)) (st : FullState) : FullState :=
  let target := st.navTargets.getD i ""
  let st := { st with
      activeNav := (st.activeNav.map (fun _ => false)).set i true
    , activePage :=
        (st.activePage.map (fun _ => false)).set (List.indexOf target st.pageIds) true
    , pageTitle := st.navTexts.getD i "" }
  let st := if target = "emails" then fetchEmails emailsResp st else st
  if target = "logs" then fetchLogs logsResp st else st

/-- A sequence of nav clicks, each with the responses of the fetches it
may trigger, applied in order. -/
def applyClicks (clicks : List (Nat × Option (List Email) × Option (List LogEntry)))
    (st : FullState) : FullState :=
  clicks.foldl (fun s c => clickNav c.1 c.2.1 c.2.2 s) st

lemma count_true_replicate_set (n i : Nat) (h : i < n) :
    ((List.replicate n false).set i true).count true = 1 := by
  induction n generalizing i with
  | zero => omega
  | succ k ih =>
    cases i with
    | zero => simp [List.replicate_succ, List.count_cons, List.count_replicate]
    | succ j => simp [List.replicate_succ, List.count_cons, ih j (by omega)]

lemma count_true_clear_set (l : List Bool) (i : Nat) (h : i < l.length) :
    ((l.map (fun _ => false)).set i true).count true = 1 := by
  have hm : l.map (fun _ => false) = List.replicate l.length false := by simp
  rw [hm]
  exact count_true_replicate_set l.length i h

lemma fetchEmails_frame (resp : Option (List Email)) (st : FullState) :
    (fetchEmails resp st).currentState = st.currentState ∧
    (fetchEmails resp st).activeNav = st.activeNav ∧
    (fetchEmails resp st).activePage = st.activePage ∧
    (fetchEmails resp st).pageTitle = st.pageTitle ∧
    (fetchEmails resp st).navTargets = st.navTargets ∧
    (fetchEmails resp st).navTexts = st.navTexts ∧
    (fetchEmails resp st).pageIds = st.pageIds := by
  cases resp <;> exact ⟨rfl, rfl, rfl, rfl, rfl, rfl, rfl⟩

lemma fetchLogs_frame (resp : Option (List LogEntry)) (st : FullState) :
    (fetchLogs resp st).currentState = st.currentState ∧
    (fetchLogs resp st).activeNav = st.activeNav ∧
    (fetchLogs resp st).activePage = st.activePage ∧
    (fetchLogs resp st).pageTitle = st.pageTitle ∧
    (fetchLogs resp st).navTargets = st.navTargets ∧
    (fetchLogs resp st).navTexts = st.navTexts ∧
    (fetchLogs resp st).pageIds = st.pageIds := by
  cases resp <;> exact ⟨rfl, rfl, rfl, rfl, rfl, rfl, rfl⟩

lemma clickNav_parts (i : Nat) (er : Option (List Email))
    (lr : Option (List LogEntry)) (st : FullState) :
    (clickNav i er lr st).navTargets = st.navTargets ∧
    (clickNav i er lr st).navTexts = st.navTexts ∧
    (clickNav i er lr st).pageIds = st.pageIds ∧
    (clickNav i er lr st).activeNav = (st.activeNav.map (fun _ => false)).set i true ∧
    (clickNav i er lr st).activePage =
      (st.activePage.map (fun _ => false)).set
        (List.indexOf (st.navTargets.getD i "") st.pageIds) true ∧
    (clickNav i er lr st).pageTitle = st.navTexts.getD i "" ∧
    (clickNav i er lr st).currentState = st.currentState := by
  cases er <;> cases lr <;>
    (unfold clickNav
     dsimp only
     split_ifs <;> simp [fetchEmails, fetchLogs])

lemma applyClicks_parts
    (clicks : List (Nat × Option (List Email) × Option (List LogEntry)))
    (st : FullState) :
    (applyClicks clicks st).navTargets = st.navTargets ∧
    (applyClicks clicks st).navTexts = st.navTexts ∧
    (applyClicks clicks st).pageIds = st.pageIds ∧
    (applyClicks clicks st).activeNav.length = st.activeNav.length ∧
    (applyClicks clicks st).activePage.length = st.activePage.length := by
  induction clicks generalizing st with
  | nil => exact ⟨rfl, rfl, rfl, rfl, rfl⟩
  | cons c cs ih =>
    obtain ⟨h1, h2, h3, h4, h5, _, _⟩ := clickNav_parts c.1 c.2.1 c.2.2 st
    obtain ⟨g1, g2, g3, g4, g5⟩ := ih (clickNav c.1 c.2.1 c.2.2 st)
    have hstep : applyClicks (c :: cs) st = applyClicks cs (clickNav c.1 c.2.1 c.2.2 st) := rfl
    rw [hstep]
    refine ⟨g1.trans h1, g2.trans h2, g3.trans h3, ?_, ?_⟩
    · rw [g4, h4]
      simp
    · rw [g5, h5]
      simp

/-- Claim C6: after any sequence of nav clicks followed by a click on item
`i`, exactly one nav item and exactly one page carry the `active` class,
and the page title equals the clicked item's text — provided the click is
on an existing item whose `data-target` is the id of one of the pages, and
the `active` bookkeeping lists line up with the items and pages. -/
theorem nav_click_active_invariant (st : FullState)
    (clicks : List (Nat × Option (List Email) × Option (List LogEntry)))
    (i : Nat) (er : Option (List Email)) (lr : Option (List LogEntry))
    (hnav : st.activeNav.length = st.navTargets.length)
    (hpage : st.activePage.length = st.pageIds.length)
    (hi : i < st.navTargets.length)
    (ht : st.navTargets.getD i "" ∈ st.pageIds) :
    (clickNav i er lr (applyClicks clicks st)).activeNav.count true = 1 ∧
    (clickNav i er lr (applyClicks clicks st)).activePage.count true = 1 ∧
    (clickNav i er lr (applyClicks clicks st)).pageTitle = st.navTexts.getD i "" := by
  obtain ⟨a1, a2, a3, a4, a5⟩ := applyClicks_parts clicks st
  obtain ⟨c1, c2, c3, c4, c5, c6, c7⟩ := clickNav_parts i er lr (applyClicks clicks st)
  refine ⟨?_, ?_, ?_⟩
  · rw [c4]
    refine count_true_clear_set _ i ?_
    rw [a4, hnav]
    exact hi
  · rw [c5, a1, a3]
    refine count_true_clear_set _ _ ?_
    rw [a5, hpage]
    exact List.indexOf_lt_length.mpr ht
  · rw [c6, a2]

/-- A concrete document shape with three nav items and three pages, as the
dashboard page has. -/
def demoState : FullState :=
  { currentState := initCurrentState
  , statusText := "Stopped"
  , statusIndicatorRunning := false
  , toggleBtnText := "Start Agent"
  , toggleBtnClass := "primary"
  , statUptime := "0s"
  , statEmails := "0"
  , statActions := "0"
  , statRetries := "0"
  , emailsTbody := ""
  , logsList := ""
  , navTargets := ["dashboard", "emails", "logs"]
  , navTexts := ["Dashboard", "Emails", "Logs"]
  , pageIds := ["dashboard", "emails", "logs"]
  , activeNav := [true, false, false]
  , activePage := [true, false, false]
  , pageTitle := "Dashboard" }

/-- Witness for C6: clicking item 0 and then item 1 on the demo document
leaves one active nav item, one active page, and the title `"Emails"`. -/
theorem nav_click_active_invariant_witness :
    (demoState.activeNav.length = demoState.navTargets.length ∧
     demoState.activePage.length = demoState.pageIds.length ∧
     1 < demoState.navTargets.length ∧
     demoState.navTargets.getD 1 "" ∈ demoState.pageIds) ∧
    ((clickNav 1 none none (applyClicks [(0, none, none)] demoState)).activeNav.count true = 1 ∧
     (clickNav 1 none none (applyClicks [(0, none, none)] demoState)).activePage.count true = 1 ∧
     (clickNav 1 none none (applyClicks [(0, none, none)] demoState)).pageTitle =
       demoState.navTexts.getD 1 "") :=
  ⟨⟨rfl, rfl, by decide, by decide⟩,
   nav_click_active_invariant demoState [(0, none, none)] 1 none none rfl rfl
     (by decide) (by decide)⟩

/-- One client event, with the data its handler receives.  `toggleOp`
carries whether the POST resolves; the follow-up status fetch it may
schedule arrives later as its own `statusOp`.  `renderStatusOp` is a
direct `updateStatus` call. -/
inductive Op where
  | statusOp : Option (Bool × Nat) → Op
  | statsOp : Option Stats → Op
  | emailsOp : Option (List Email) → Op
  | logsOp : Option (List LogEntry) → Op
  | toggleOp : Bool → Op
  | navOp : Nat → Option (List Email) → Option (List LogEntry) → Op
  | renderStatusOp : Bool → Nat → Op

/-- The effect of one event on the document and `currentState`.
`toggleAgent` writes neither (its request and schedule are the
`ToggleOutcome`), so `toggleOp` leaves the state unchanged. -/
def step : Op → FullState → FullState
  | Op.statusOp r, st => fetchStatus r st
  | Op.statsOp r, st => fetchStats r st
  | Op.emailsOp r, st => fetchEmails r st
  | Op.logsOp r, st => fetchLogs r st
  | Op.toggleOp _, st => st
  | Op.navOp i er lr, st => clickNav i er lr st
  | Op.renderStatusOp b u, st => updateStatus b u st

/-- A sequence of events applied in order. -/
def applyOps (ops : List Op) (st : FullState) : FullState :=
  ops.foldl (fun s o => step o s) st

lemma updateStatus_currentState (b : Bool) (u : Nat) (st : FullState) :
    (updateStatus b u st).currentState = { st.currentState with isRunning := b } := by
  cases b <;> rfl

lemma step_cache_parts (o : Op) (st : FullState) :
    (step o st).currentState.stats = st.currentState.stats ∧
    (step o st).currentState.emails = st.currentState.emails ∧
    (step o st).currentState.logs = st.currentState.logs := by
  cases o with
  | statusOp r =>
    cases r with
    | none => simp [step, fetchStatus, updateStatus_currentState]
    | some p => simp [step, fetchStatus, updateStatus_currentState]
  | statsOp r => cases r <;> exact ⟨rfl, rfl, rfl⟩
  | emailsOp r => cases r <;> exact ⟨rfl, rfl, rfl⟩
  | logsOp r => cases r <;> exact ⟨rfl, rfl, rfl⟩
  | toggleOp b => exact ⟨rfl, rfl, rfl⟩
  | navOp i er lr =>
    simp [step, (clickNav_parts i er lr st).2.2.2.2.2.2]
  | renderStatusOp b u => simp [step, updateStatus_currentState]

lemma applyOps_cache (ops : List Op) (st : FullState) :
    (applyOps ops st).currentState.stats = st.currentState.stats ∧
    (applyOps ops st).currentState.emails = st.currentState.emails ∧
    (applyOps ops st).currentState.logs = st.currentState.logs := by
  induction ops generalizing st with
  | nil => exact ⟨rfl, rfl, rfl⟩
  | cons o os ih =>
    obtain ⟨h1, h2, h3⟩ := step_cache_parts o st
    obtain ⟨g1, g2, g3⟩ := ih (step o st)
    exact ⟨g1.trans h1, g2.trans h2, g3.trans h3⟩

/-- Claim C9: over any sequence of client events, `currentState.stats`,
`currentState.emails` and `currentState.logs` never change from their
prior (hence initial) values; every event other than one going through
`updateStatus` leaves all of `currentState` untouched, and `updateStatus`
writes only `isRunning`. -/
theorem currentState_frame_spec (ops : List Op) (st : FullState) :
    ((applyOps ops st).currentState.stats = st.currentState.stats ∧
     (applyOps ops st).currentState.emails = st.currentState.emails ∧
     (applyOps ops st).currentState.logs = st.currentState.logs) ∧
    (∀ r, (step (Op.statsOp r) st).currentState = st.currentState) ∧
    (∀ r, (step (Op.emailsOp r) st).currentState = st.currentState) ∧
    (∀ r, (step (Op.logsOp r) st).currentState = st.currentState) ∧
    (∀ b, (step (Op.toggleOp b) st).currentState = st.currentState) ∧
    (∀ i er lr, (step (Op.navOp i er lr) st).currentState = st.currentState) ∧
    (∀ b u, (step (Op.renderStatusOp b u) st).currentState =
      { st.currentState with isRunning := b }) := by
  refine ⟨applyOps_cache ops st, ?_, ?_, ?_, ?_, ?_, ?_⟩
  · intro r
    cases r <;> rfl
  · intro r
    cases r <;> rfl
  · intro r
    cases r <;> rfl
  · intro b
    rfl
  · intro i er lr
    exact (clickNav_parts i er lr st).2.2.2.2.2.2
  · intro b u
    exact updateStatus_currentState b u st
